import Mathlib

/-!
Verification development for the RouteBudget driver/viewer client.

The repository is a React Native client for a cab-management service.  The
verified core is the live location broadcast and route-guidance subsystem:

* `src/src/screens/LocationScreen.tsx` — driver screen: haversine distance,
  pickup/drop arrival effects, the snapshot sender and the socket teardown.
* `src/src/services/AutoDriverTracking.ts` — background driver tracking:
  snapshot sender, reconnect backoff, teardown.
* `src/unnamed/part_001` — customer (viewer) screen: instruction
  normalisation, turn classification, `formatDistance`, polyline decoding,
  `getDirections` provider fallback, guidance-step advancement, viewer
  socket cleanup.

Each TypeScript function is embedded as a Lean definition of the same name,
inside a namespace naming its source file.  JavaScript numbers are modelled
as rationals (`ℚ`) except in the two haversine functions, which are stated
over the reals with the platform `Math` functions (`sin`, `cos`, `sqrt`,
`atan2`, `PI`) abstracted as a parameter record, since both implementations
call the very same platform primitives.  Event-driven code (React effects,
socket callbacks) is embedded as explicit state-transition functions on
record types that carry exactly the mutable state the source touches; timer
handles are modelled as `Option` fields (`none` = no timer scheduled) and a
socket send is modelled by appending the message to a trace.
-/

/-- Trip phase enumeration shared by both screens
(`type TripPhase = "idle" | "to_pickup" | "pickup_reached" | "to_drop" | "completed"`). -/
inductive TripPhase where
  | idle
  | to_pickup
  | pickup_reached
  | to_drop
  | completed
deriving DecidableEq, Repr

/-- Coordinate pair with rational components (`interface LatLng`). -/
structure LatLng where
  latitude : ℚ
  longitude : ℚ
deriving DecidableEq, Repr

instance : Inhabited LatLng := ⟨⟨0, 0⟩⟩

/-- WebSocket `readyState` values. -/
inductive ReadyState where
  | connecting
  | open
  | closing
  | closed
deriving DecidableEq, Repr

namespace Geometry

/-- The platform math primitives used by both haversine implementations
(`Math.sin`, `Math.cos`, `Math.sqrt`, `Math.atan2`, `Math.PI`).  Both the
driver screen and the viewer screen call the same platform functions, so we
abstract them as a record parameter over the number type `α` (instantiated
with `ℝ` in the claim theorem). -/
structure JsMath (α : Type) where
  sin : α → α
  cos : α → α
  sqrt : α → α
  atan2 : α → α → α
  pi : α

/-- Coordinate pair over the number type `α`, for the distance functions. -/
structure Coordinate (α : Type) where
  latitude : α
  longitude : α

variable {α : Type} [Field α]

/-- `LocationScreen.tsx` line 88: `(degrees * Math.PI) / 180`. -/
def toRadians (M : JsMath α) (degrees : α) : α := degrees * M.pi / 180

/-- `LocationScreen.tsx` lines 90–105 (`haversineDistanceInMeters`),
Earth radius written as `6_371_000` meters. -/
def haversineDistanceInMeters (M : JsMath α) (a b : Coordinate α) : α :=
  let EARTH_RADIUS : α := 6371000
  let dLat := toRadians M (b.latitude - a.latitude)
  let dLon := toRadians M (b.longitude - a.longitude)
  let lat1 := toRadians M a.latitude
  let lat2 := toRadians M b.latitude
  let sinDLat := M.sin (dLat / 2)
  let sinDLon := M.sin (dLon / 2)
  let h := sinDLat * sinDLat + M.cos lat1 * M.cos lat2 * sinDLon * sinDLon
  let c := 2 * M.atan2 (M.sqrt h) (M.sqrt (1 - h))
  EARTH_RADIUS * c

/-- `src/unnamed/part_001` lines 1398–1409 (`calculateDistance`), Earth
radius written as `6371` km, result multiplied by `1000`. -/
def calculateDistance (M : JsMath α) (loc1 loc2 : Coordinate α) : α :=
  let R : α := 6371
  let dLat := (loc2.latitude - loc1.latitude) * M.pi / 180
  let dLon := (loc2.longitude - loc1.longitude) * M.pi / 180
  let a :=
    M.sin (dLat / 2) * M.sin (dLat / 2) +
      M.cos (loc1.latitude * M.pi / 180) * M.cos (loc2.latitude * M.pi / 180) *
        M.sin (dLon / 2) * M.sin (dLon / 2)
  let c := 2 * M.atan2 (M.sqrt a) (M.sqrt (1 - a))
  R * c * 1000

end Geometry

namespace AutoDriverTracking

/-- Socket messages the tracking service can emit. -/
inductive Msg where
  | registerDriver (driverId : Option String) (cabNumber : Option String)
  | ping
  | location (driverId : String) (pos : LatLng) (phase : TripPhase)
  | driverDisconnect (driverId : Option String) (cabNumber : Option String)
deriving DecidableEq, Repr

/-- JavaScript truthiness of a nullable string (`!driverId` is true for both
`null` and the empty string). -/
def truthyStr : Option String → Bool
  | none => false
  | some s => s ≠ ""

/-- The module-level mutable state of `AutoDriverTracking.ts` (lines 12–19),
plus the trace of messages sent on the socket and two fields describing the
live socket object itself: whether its `onclose` handler is still attached
and whether a close event is pending delivery.  `wsRef` is the module
variable `ws` (`none` = `null`); setting it to `null` does not detach the
handlers from the underlying socket object. -/
structure State where
  wsRef : Option ReadyState
  oncloseAttached : Bool
  closeEventPending : Bool
  heartbeat : Bool
  watchActive : Bool
  currentPosition : Option LatLng
  driverId : Option String
  cabNumber : Option String
  reconnectTimer : Option ℕ
  reconnectAttempts : ℕ
  sent : List Msg
deriving DecidableEq, Repr

/-- `AutoDriverTracking.ts` line 21: `WS_RECONNECT_BASE_MS = 2000`. -/
def WS_RECONNECT_BASE_MS : ℕ := 2000

/-- The delay computed at `AutoDriverTracking.ts` line 138:
`Math.min(WS_RECONNECT_BASE_MS * Math.pow(2, reconnectAttempts), 30000)`. -/
def reconnectDelay (attempts : ℕ) : ℕ :=
  min (WS_RECONNECT_BASE_MS * 2 ^ attempts) 30000

/-- `sendLocationUpdate` (lines 70–88): sends a snapshot only when the
socket is open and both `driverId` and `currentPosition` are set; otherwise
it returns without sending. -/
def sendLocationUpdate (s : State) : State :=
  if s.wsRef ≠ some ReadyState.open then s
  else if ¬ truthyStr s.driverId ∨ s.currentPosition = none then s
  else
    match s.driverId, s.currentPosition with
    | some d, some pos =>
        { s with sent := s.sent ++ [Msg.location d pos TripPhase.idle] }
    | _, _ => s

/-- Body of `ws.onclose` (lines 134–140): stop the heartbeat, clear any
pending reconnect timer, increment the attempt counter and schedule a
reconnect after `reconnectDelay`. -/
def oncloseBody (s : State) : State :=
  let attempts := s.reconnectAttempts + 1
  { s with
      heartbeat := false
      reconnectAttempts := attempts
      reconnectTimer := some (reconnectDelay attempts)
      closeEventPending := false }

/-- Deliver a pending close event: the handler runs only if it is still
attached to the socket object. -/
def deliverClose (s : State) : State :=
  if s.closeEventPending then
    if s.oncloseAttached then oncloseBody s
    else { s with closeEventPending := false }
  else s

/-- Body of `ws.onopen` (lines 108–124): reset the attempt counter, start
the heartbeat, send the register message, then an immediate snapshot. -/
def onopenBody (s : State) : State :=
  sendLocationUpdate
    { s with
        reconnectAttempts := 0
        heartbeat := true
        sent := s.sent ++ [Msg.registerDriver s.driverId s.cabNumber] }

/-- `stopAutoTracking` (lines 178–199): clear the position watch; if a
socket is referenced, send a best-effort `DRIVER_DISCONNECT` when it is
open, call `close()` (which only requests closure — the close event is
delivered later and the `onclose` handler stays attached) and null the
reference; stop the heartbeat and clear any pending reconnect timer. -/
def stopAutoTracking (s : State) : State :=
  let s1 := { s with watchActive := false }
  let s2 :=
    match s1.wsRef with
    | some rs =>
        let sA :=
          if rs = ReadyState.open then
            { s1 with sent := s1.sent ++ [Msg.driverDisconnect s1.driverId s1.cabNumber] }
          else s1
        { sA with wsRef := none, closeEventPending := true }
    | none => s1
  { s2 with heartbeat := false, reconnectTimer := none }

end AutoDriverTracking

namespace LocationScreen

/-- Socket messages the driver screen can emit.  `location` carries the
`DriverBroadcastPayload` fields that vary (lines 214–228); `timestamp` is
omitted (wall-clock, not modelled). -/
inductive Msg where
  | location (driverId : String) (pos : LatLng) (phase : TripPhase)
      (pickup drop : Option LatLng) (pickupAddress dropAddress : String)
  | driverDisconnect (driverId cabNumber : String)
  | registerDriver (driverId cabNumber : String)
  | ping
deriving DecidableEq, Repr

/-- `LocationScreen.tsx` line 73. -/
def BROADCAST_INTERVAL_MS : ℕ := 10000

/-- `LocationScreen.tsx` line 74. -/
def WS_RECONNECT_DELAY_MS : ℕ := 5000

/-- `LocationScreen.tsx` line 75. -/
def ARRIVAL_THRESHOLD_METERS : ℚ := 120

/-- The mutable state of the `LocationScreen` component: its React state
(lines 110–125), the socket/timer refs (lines 127–134) and the trace of
messages sent on the socket.  `socketReady` models `webSocketRef.current`
(`none` = `null`); `oncloseAttached`/`closeEventPending` describe the
underlying socket object, which keeps its `onclose` handler even after the
ref is nulled.  Timer refs are `Option`/`Bool` fields; `promptCount` counts
how many times the pickup prompt has been displayed (`Alert.alert` at line
870). -/
structure State where
  driverId : String
  cabNumber : String
  locationFrom : String
  locationTo : String
  currentPosition : Option LatLng
  pickupCoordinate : Option LatLng
  dropCoordinate : Option LatLng
  tripPhase : TripPhase
  hasPromptedPickup : Bool
  promptVisible : Bool
  promptCount : ℕ
  socketReady : Option ReadyState
  oncloseAttached : Bool
  closeEventPending : Bool
  isConnected : Bool
  heartbeatActive : Bool
  broadcastActive : Bool
  reconnectTimer : Option ℕ
  messages : List Msg
deriving DecidableEq, Repr

/-- `sendLocationUpdate` (lines 203–237): returns without sending unless
the socket is open (line 204) and both `driverId` and `currentPosition` are
truthy (line 209); otherwise appends one `location` snapshot built from the
current state. -/
def sendLocationUpdate (s : State) : State :=
  if s.socketReady ≠ some ReadyState.open then s
  else if s.driverId = "" ∨ s.currentPosition = none then s
  else
    match s.currentPosition with
    | some pos =>
        { s with messages := s.messages ++
            [Msg.location s.driverId pos s.tripPhase s.pickupCoordinate
              s.dropCoordinate s.locationFrom s.locationTo] }
    | none => s

/-- `stopBroadcasting` (lines 165–170): clear the broadcast interval. -/
def stopBroadcasting (s : State) : State :=
  { s with broadcastActive := false }

/-- `closeWebSocket` (lines 172–201): if a socket is referenced, send a
best-effort `DRIVER_DISCONNECT` while open, call `close()` (close event
delivered later, handler left attached) and null the ref; then mark
disconnected, stop the heartbeat, stop broadcasting and clear any pending
reconnect timeout. -/
def closeWebSocket (s : State) : State :=
  let s1 :=
    match s.socketReady with
    | some rs =>
        let sA :=
          if rs = ReadyState.open then
            { s with messages := s.messages ++
                [Msg.driverDisconnect s.driverId s.cabNumber] }
          else s
        { sA with socketReady := none, closeEventPending := true }
    | none => s
  { s1 with
      isConnected := false
      heartbeatActive := false
      broadcastActive := false
      reconnectTimer := none }

/-- Body of `socket.onclose` (lines 300–316): mark disconnected, stop the
heartbeat, stop broadcasting, clear any pending reconnect timeout and
schedule a reconnect after `WS_RECONNECT_DELAY_MS`. -/
def oncloseBody (s : State) : State :=
  { s with
      isConnected := false
      heartbeatActive := false
      broadcastActive := false
      reconnectTimer := some WS_RECONNECT_DELAY_MS
      closeEventPending := false }

/-- Deliver a pending close event to the socket object; the handler runs
only if still attached. -/
def deliverClose (s : State) : State :=
  if s.closeEventPending then
    if s.oncloseAttached then oncloseBody s
    else { s with closeEventPending := false }
  else s

/-- The pickup-arrival React effect (lines 862–886), parametrised by the
distance function (the code calls `haversineDistanceInMeters`): do nothing
unless position and pickup are known, the phase is `to_pickup` and the
prompt flag is clear; when the distance is at most
`ARRIVAL_THRESHOLD_METERS`, set the flag and display the prompt. -/
def pickupArrivalEffect (dist : LatLng → LatLng → ℚ) (s : State) : State :=
  match s.currentPosition, s.pickupCoordinate with
  | some pos, some pickup =>
      if s.tripPhase ≠ TripPhase.to_pickup ∨ s.hasPromptedPickup then s
      else if dist pos pickup ≤ ARRIVAL_THRESHOLD_METERS then
        { s with
            hasPromptedPickup := true
            promptVisible := true
            promptCount := s.promptCount + 1 }
      else s
  | _, _ => s

/-- The prompt answer "Not yet" (line 874): clear the prompt flag. -/
def answerNotYet (s : State) : State :=
  { s with hasPromptedPickup := false, promptVisible := false }

/-- The prompt answer "Start drop navigation" (lines 877–883): the snapshot
is sent with the pre-update phase (the React callback closes over the old
state), then the phase becomes `to_drop`. -/
def answerStartDrop (s : State) : State :=
  let s1 := sendLocationUpdate s
  { s1 with
      tripPhase := TripPhase.to_drop
      hasPromptedPickup := true
      promptVisible := false }

/-- The drop-arrival React effect (lines 888–899): do nothing unless
position and drop are known and the phase is `to_drop`; when the distance
is at most the threshold, send one final snapshot (built, per the React
closure, from the pre-update state, so it still carries phase `to_drop`),
set the phase to `completed` and stop the broadcast loop. -/
def dropArrivalEffect (dist : LatLng → LatLng → ℚ) (s : State) : State :=
  match s.currentPosition, s.dropCoordinate with
  | some pos, some dropC =>
      if s.tripPhase ≠ TripPhase.to_drop then s
      else if dist pos dropC ≤ ARRIVAL_THRESHOLD_METERS then
        let s1 := sendLocationUpdate s
        { s1 with tripPhase := TripPhase.completed, broadcastActive := false }
      else s
  | _, _ => s

/-- One position update from `Geolocation.watchPosition` (lines 376–399)
followed by the two arrival effects that re-run when `currentPosition`
changes: store the new position, stream a snapshot while the socket is open
(lines 384–388), then run the pickup effect (line 862) and the drop effect
(line 888) in source order. -/
def onPositionUpdate (dist : LatLng → LatLng → ℚ) (p : LatLng) (s : State) : State :=
  let s1 := { s with currentPosition := some p }
  let s2 := if s1.socketReady = some ReadyState.open then sendLocationUpdate s1 else s1
  dropArrivalEffect dist (pickupArrivalEffect dist s2)

/-- Fold a list of position updates through `onPositionUpdate`. -/
def posFold (dist : LatLng → LatLng → ℚ) (ps : List LatLng) (s : State) : State :=
  ps.foldl (fun acc q => onPositionUpdate dist q acc) s

end LocationScreen

namespace CustomerDetailScreen

/-- Turn taxonomy of `RouteStepInfo.turnType` (`src/unnamed/part_001`
line 74). -/
inductive TurnType where
  | straight
  | left
  | right
  | slight_left
  | slight_right
  | u_turn
deriving DecidableEq, Repr

/-- One maneuver step (`interface RouteStepInfo`, lines 70–75). -/
structure RouteStepInfo where
  instruction : String
  distanceMeters : ℚ
  endLocation : LatLng
  turnType : TurnType
deriving DecidableEq, Repr

instance : Inhabited RouteStepInfo :=
  ⟨⟨"", 0, ⟨0, 0⟩, TurnType.straight⟩⟩

/-- A route (`interface RouteResult`, lines 77–80). -/
structure RouteResult where
  coordinates : List LatLng
  steps : List RouteStepInfo
deriving DecidableEq, Repr

/-- The whitespace class matched by the `\s` regex escape, restricted to
the code points that can occur in provider instructions. -/
def isJsSpace (c : Char) : Bool :=
  c = ' ' ∨ c = '\t' ∨ c = '\n' ∨ c = '\r' ∨ c = '\x0b' ∨ c = '\x0c'

/-- ASCII letter, the `[A-Za-z]` regex class. -/
def isAsciiLetter (c : Char) : Bool :=
  ('A' ≤ c ∧ c ≤ 'Z') ∨ ('a' ≤ c ∧ c ≤ 'z')

/-- Scanner for `value.replace(/<[^>]*>?/g, "")` (line 82): on `<`,
consume up to and including the next `>` (or to the end). The Bool flag
records whether the scan is currently inside a tag. -/
def stripTagsAux : Bool → List Char → List Char
  | _, [] => []
  | true, c :: rest =>
      if c = '>' then stripTagsAux false rest else stripTagsAux true rest
  | false, c :: rest =>
      if c = '<' then stripTagsAux true rest else c :: stripTagsAux false rest

/-- `.replace(/&nbsp;/g, " ")` (line 82). -/
def replaceNbsp : List Char → List Char
  | '&' :: 'n' :: 'b' :: 's' :: 'p' :: ';' :: rest => ' ' :: replaceNbsp rest
  | c :: rest => c :: replaceNbsp rest
  | [] => []

/-- `stripHtmlTags` (line 82). -/
def stripHtmlTags (value : String) : List Char :=
  replaceNbsp (stripTagsAux false value.data)

/-- `.replace(/\s+/g, " ")` (line 85): collapse every whitespace run to a
single space.  The Bool flag records whether a run is in progress. -/
def collapseSpacesAux : Bool → List Char → List Char
  | _, [] => []
  | inRun, c :: rest =>
      if isJsSpace c then
        if inRun then collapseSpacesAux true rest
        else ' ' :: collapseSpacesAux true rest
      else c :: collapseSpacesAux false rest

/-- JavaScript `String.prototype.trim`. -/
def jsTrim (l : List Char) : List Char :=
  ((l.dropWhile (isJsSpace ·)).reverse.dropWhile (isJsSpace ·)).reverse

/-- Match `/^Head\s+([A-Za-z]+)(.*)$/` (line 86): literal `Head`, at least
one whitespace, then the letter run (first capture) and the rest of the
string (second capture). -/
def matchHead : List Char → Option (List Char × List Char)
  | 'H' :: 'e' :: 'a' :: 'd' :: rest =>
      match rest with
      | c :: _ =>
          if isJsSpace c then
            let afterWs := rest.dropWhile (isJsSpace ·)
            let direction := afterWs.takeWhile (isAsciiLetter ·)
            if direction = [] then none
            else some (direction, afterWs.drop direction.length)
          else none
      | [] => none
  | _ => none

/-- The compass words treated as "straight" (lines 91–100). -/
def straightWords : List (List Char) :=
  ["north", "south", "east", "west", "northeast", "northwest",
    "southeast", "southwest"].map String.data

/-- `remainder.replace(/^on\s+/i, "on ")` (line 103): a case-insensitive
leading `on` followed by whitespace is rewritten to literal `on `. -/
def replaceLeadingOn (l : List Char) : List Char :=
  match l with
  | o :: n :: rest =>
      if o.toLower = 'o' ∧ n.toLower = 'n' then
        match rest with
        | c :: _ =>
            if isJsSpace c then 'o' :: 'n' :: ' ' :: rest.dropWhile (isJsSpace ·)
            else l
        | [] => l
      else l
  | _ => l

/-- `normalizeInstruction` (lines 84–109). -/
def normalizeInstruction (value : String) : String :=
  let cleaned := jsTrim (collapseSpacesAux false (stripHtmlTags value))
  match matchHead cleaned with
  | some (dir, rem) =>
      let direction := dir.map Char.toLower
      let remainder := jsTrim rem
      if direction ∈ straightWords then
        let suffix :=
          if remainder = [] then []
          else ' ' :: replaceLeadingOn remainder
        String.mk (jsTrim ("Go straight".data ++ suffix))
      else String.mk cleaned
  | none => String.mk cleaned

/-- `Math.round` on a rational: round half towards positive infinity. -/
def jsRound (q : ℚ) : ℤ := ⌊q + 1 / 2⌋

/-- Rendering of `Number(km.toFixed(1))` for a non-negative number of
tenths: a whole number prints without the decimal point. -/
def tenthsToString (t : ℤ) : String :=
  if t % 10 = 0 then toString (t / 10)
  else toString (t / 10) ++ "." ++ toString (t % 10)

/-- `formatDistance` (lines 111–126).  A rational input is always finite,
so the `!Number.isFinite(meters)` disjunct of the first guard reduces to
the sign check. -/
def formatDistance (meters : ℚ) : String :=
  if meters < 0 then "0 m"
  else if 1000 ≤ meters then
    let km := meters / 1000
    (if 10 ≤ km then toString (jsRound km) else tenthsToString (jsRound (km * 10))) ++ " km"
  else if 100 ≤ meters then
    toString (jsRound (meters / 10) * 10) ++ " m"
  else
    toString (max 5 (jsRound (meters / 5) * 5)) ++ " m"

/-- `STEP_COMPLETION_THRESHOLD_METERS` (line 128). -/
def STEP_COMPLETION_THRESHOLD_METERS : ℚ := 35

/-- Substring test, the semantics of `/pat/.test(text)` for a literal
pattern. -/
def hasSub (pat : List Char) : List Char → Bool
  | [] => pat.isEmpty
  | c :: rest => pat.isPrefixOf (c :: rest) || hasSub pat rest

/-- `extractTurnType` (lines 158–167): keyword matching on the lowercased
text, in source order, defaulting to `straight`. -/
def extractTurnType (raw : String) : TurnType :=
  let text := raw.data.map Char.toLower
  if hasSub "u-turn".data text || hasSub "u turn".data text then TurnType.u_turn
  else if hasSub "slight left".data text then TurnType.slight_left
  else if hasSub "slight right".data text then TurnType.slight_right
  else if hasSub "turn left".data text || hasSub "left onto".data text ||
    hasSub "keep left".data text then TurnType.left
  else if hasSub "turn right".data text || hasSub "right onto".data text ||
    hasSub "keep right".data text then TurnType.right
  else TurnType.straight

/-- One varint chunk of the polyline decoder (the inner `do … while
(b >= 0x20)` loop of `decodePolyline`, lines 758–780).  Each char code `c`
yields `b = c - 63`; the low five bits are OR-ed into the accumulator at
the current shift (the bits are disjoint, so the OR is an addition), and
the loop continues while `b ≥ 0x20`.  Reading past the end of the string
(JavaScript `charCodeAt` returns NaN, whose low bits are 0 and which fails
the `≥ 0x20` test) ends the chunk.  Returns the accumulated value and the
remaining input. -/
def decodeChunk : List ℕ → ℕ → ℤ → ℤ × List ℕ
  | [], _, acc => (acc, [])
  | c :: rest, shift, acc =>
      let b : ℤ := (c : ℤ) - 63
      let acc' := acc + b % 32 * 2 ^ shift
      if 32 ≤ b then decodeChunk rest (shift + 5) acc' else (acc', rest)

lemma decodeChunk_length_le : ∀ (l : List ℕ) (shift : ℕ) (acc : ℤ),
    (decodeChunk l shift acc).2.length ≤ l.length := by
  intro l
  induction l with
  | nil => intro shift acc; simp [decodeChunk]
  | cons c rest ih =>
      intro shift acc
      simp only [decodeChunk]
      split
      · exact (ih _ _).trans (Nat.le_succ _)
      · exact Nat.le_succ _

/-- The signed zig-zag step `(result & 1) ? ~(result >> 1) : (result >> 1)`
(lines 767 and 777); `~x = -x - 1` and the accumulator is non-negative, so
`x >> 1` is division by two. -/
def zigzag (r : ℤ) : ℤ :=
  if r % 2 = 1 then -(r / 2) - 1 else r / 2

/-- Outer loop of `decodePolyline` (lines 751–784), on the list of char
codes, carrying the running `lat`/`lng` accumulators (in 1e-5 degree
units); each iteration decodes one latitude chunk and one longitude chunk
and pushes `lat / 1e5, lng / 1e5`. -/
def decodePoints (l : List ℕ) (lat lng : ℤ) : List LatLng :=
  match hl : l with
  | [] => []
  | c :: rest =>
      let r1 := decodeChunk (c :: rest) 0 0
      let lat' := lat + zigzag r1.1
      let r2 := decodeChunk r1.2 0 0
      let lng' := lng + zigzag r2.1
      ⟨(lat' : ℚ) / 100000, (lng' : ℚ) / 100000⟩ :: decodePoints r2.2 lat' lng'
termination_by l.length
decreasing_by
  subst hl
  have h1 : (decodeChunk (c :: rest) 0 0).2.length ≤ rest.length := by
    simp only [decodeChunk]
    split
    · exact decodeChunk_length_le _ _ _
    · simp
  have h2 := decodeChunk_length_le (decodeChunk (c :: rest) 0 0).2 0 0
  simp only [List.length_cons]
  omega

/-- `decodePolyline` (lines 751–784) on a polyline string: decode the
UTF-16 code units. -/
def decodePolyline (encoded : String) : List LatLng :=
  decodePoints (encoded.data.map Char.toNat) 0 0

/-- A maneuver step of the Google directions response
(`leg.steps[i]`, lines 800–816): `html_instructions` when it is a string,
`distance.value` coerced with `Number(…) || 0`, and `end_location` when
both components are finite numbers. -/
structure GoogleStep where
  html_instructions : Option String
  distanceValue : Option ℚ
  end_location : Option LatLng
deriving DecidableEq, Repr

/-- One leg of a Google route (line 797). -/
structure GoogleLeg where
  steps : List GoogleStep
deriving DecidableEq, Repr

/-- One Google route (lines 792–794). -/
structure GoogleRoute where
  overview_polyline : String
  legs : List GoogleLeg
deriving DecidableEq, Repr

/-- The Google directions response body; `none` models a request that
threw (network error / non-2xx).  An absent or empty `routes` array is
modelled by the empty list. -/
structure GoogleResponse where
  routes : List GoogleRoute
deriving DecidableEq, Repr

/-- One OSRM route; `geometry` is `none` when the field is absent and the
empty string is falsy in the source guard. -/
structure OsrmRoute where
  geometry : Option String
deriving DecidableEq, Repr

/-- The OSRM response body; `none` at the call site models a request that
threw. -/
structure OsrmResponse where
  routes : List OsrmRoute
deriving DecidableEq, Repr

/-- The step-list construction of the Google branch of `getDirections`
(lines 796–817). -/
def buildGoogleSteps (route : GoogleRoute) : List RouteStepInfo :=
  route.legs.flatMap fun leg =>
    leg.steps.filterMap fun step =>
      let rawInstruction := step.html_instructions.getD ""
      let instruction :=
        if rawInstruction = "" then "" else normalizeInstruction rawInstruction
      let distanceMeters := step.distanceValue.getD 0
      match step.end_location with
      | some endLoc =>
          if instruction = "" then none
          else some
            { instruction := instruction
              distanceMeters := distanceMeters
              endLocation := endLoc
              turnType :=
                extractTurnType (if instruction = "" then rawInstruction else instruction) }
      | none => none

/-- The OSRM fallback and the terminal straight-line fallback of
`getDirections` (lines 825–837): use the geometry of the first OSRM route when
present and truthy (only a polyline, no steps); otherwise return the
degenerate two-point straight line with no steps. -/
def getDirectionsOsrm (origin destination : LatLng)
    (osrmResp : Option OsrmResponse) : RouteResult :=
  match osrmResp with
  | some resp =>
      match resp.routes with
      | route :: _ =>
          match route.geometry with
          | some poly =>
              if poly = "" then { coordinates := [origin, destination], steps := [] }
              else { coordinates := decodePolyline poly, steps := [] }
          | none => { coordinates := [origin, destination], steps := [] }
      | [] => { coordinates := [origin, destination], steps := [] }
  | none => { coordinates := [origin, destination], steps := [] }

/-- `getDirections` (lines 786–838), with the two provider responses as
inputs (`none` = the request threw).  The function is total: every failure
is caught in the source and resolved into the OSRM fallback or the
straight-line fallback, so no error reaches the caller. -/
def getDirections (origin destination : LatLng)
    (googleResp : Option GoogleResponse)
    (osrmResp : Option OsrmResponse) : RouteResult :=
  match googleResp with
  | some resp =>
      match resp.routes with
      | route :: _ =>
          { coordinates := decodePolyline route.overview_polyline
            steps := buildGoogleSteps route }
      | [] => getDirectionsOsrm origin destination osrmResp
  | none => getDirectionsOsrm origin destination osrmResp

/-- The advancement loop of `updateGuidanceProgress` (lines 383–386):
while the distance to the end of the active step is at most the completion
threshold and a next step exists, advance the index. -/
def advanceSteps (dist : LatLng → LatLng → ℚ) (p : LatLng)
    (steps : List RouteStepInfo) (idx : ℕ) : ℕ :=
  if dist p (steps.getD idx default).endLocation ≤ STEP_COMPLETION_THRESHOLD_METERS ∧
      idx < steps.length - 1 then
    advanceSteps dist p steps (idx + 1)
  else idx
termination_by steps.length - idx

/-- `updateGuidanceProgress` (lines 366–408), parametrised by the distance
function (the source calls `calculateDistance`): with no steps the index
resets to 0 and the remaining distance is cleared; otherwise the stored
index is clamped to the last step, advanced by `advanceSteps`, and the
remaining distance to the end of the resulting step is recomputed.  Returns the
new `activeStepIndex` and `activeStepMeters`. -/
def updateGuidanceProgress (dist : LatLng → LatLng → ℚ) (p : LatLng)
    (steps : List RouteStepInfo) (activeStepIndex : ℕ) : ℕ × Option ℚ :=
  if steps.isEmpty then (0, none)
  else
    let idx := advanceSteps dist p steps (min activeStepIndex (steps.length - 1))
    (idx, some (dist p (steps.getD idx default).endLocation))

/-- The viewer socket state of `CustomerDetailScreen` (part_001):
`wsRef` models `websocketRef.current`; `oncloseAttached` records whether
the socket object still has its `onclose` handler; `reconnectTimer` and
`retryCount` model `reconnectTimeoutRef.current` (lines 203–206). -/
structure ViewerState where
  wsRef : Option ReadyState
  oncloseAttached : Bool
  closeEventPending : Bool
  heartbeat : Bool
  viewerId : Option String
  driverId : Option String
  retryCount : ℕ
  reconnectTimer : Option ℕ
  isSocketConnected : Bool
deriving DecidableEq, Repr

/-- JavaScript truthiness of a nullable string. -/
def truthyStr : Option String → Bool
  | none => false
  | some s => s ≠ ""

/-- `cleanupSocket` (lines 1242–1270): clear any pending reconnect, clear
the heartbeat, detach the socket handlers (`onclose = null` …), close with
code 1000 while open or connecting, null the ref, mark disconnected. -/
def cleanupSocket (c : ViewerState) : ViewerState :=
  let c1 := { c with reconnectTimer := none, heartbeat := false }
  let c2 :=
    match c1.wsRef with
    | some rs =>
        { c1 with
            oncloseAttached := false
            closeEventPending :=
              if rs = ReadyState.open ∨ rs = ReadyState.connecting then true
              else c1.closeEventPending
            wsRef := none }
    | none => c1
  { c2 with isSocketConnected := false }

/-- Body of the viewer `ws.onclose` (lines 1572–1601): mark disconnected
and clear the heartbeat; return without reconnecting when `viewerId` or
`driverId` is falsy or the close code is the intentional 1000; otherwise
schedule a reconnect after `min(1000·2^retryCount, 30000)`. -/
def viewerOncloseBody (code : ℕ) (c : ViewerState) : ViewerState :=
  let c1 := { c with isSocketConnected := false, heartbeat := false }
  if ¬ truthyStr c.viewerId ∨ ¬ truthyStr c.driverId ∨ code = 1000 then c1
  else
    { c1 with reconnectTimer := some (min (1000 * 2 ^ c.retryCount) 30000) }

/-- Deliver a pending close event with the given code; the handler runs
only if still attached. -/
def deliverViewerClose (code : ℕ) (c : ViewerState) : ViewerState :=
  if c.closeEventPending then
    if c.oncloseAttached then
      viewerOncloseBody code { c with closeEventPending := false }
    else { c with closeEventPending := false }
  else c

end CustomerDetailScreen

/-- A degenerate distance function (always 0 meters), used to evaluate the
arrival machinery at concrete inputs. -/
def zeroDist : LatLng → LatLng → ℚ := fun _ _ => 0

/-- Taxicab distance on coordinates, a concrete computable distance
function for evaluating the guidance machinery. -/
def taxiDist : LatLng → LatLng → ℚ := fun a b =>
  |a.latitude - b.latitude| + |a.longitude - b.longitude|

/-- A concrete driver-screen state: trip en route to pickup, socket open,
broadcasting. -/
def sampleTripState : LocationScreen.State :=
  { driverId := "driver-1"
    cabNumber := "KA01AB1234"
    locationFrom := "Pickup Street"
    locationTo := "Drop Avenue"
    currentPosition := some ⟨10, 20⟩
    pickupCoordinate := some ⟨10, 20⟩
    dropCoordinate := some ⟨11, 21⟩
    tripPhase := TripPhase.to_pickup
    hasPromptedPickup := false
    promptVisible := false
    promptCount := 0
    socketReady := some ReadyState.open
    oncloseAttached := true
    closeEventPending := false
    isConnected := true
    heartbeatActive := true
    broadcastActive := true
    reconnectTimer := none
    messages := [] }

/-- `sampleTripState` en route to drop. -/
def sampleDropState : LocationScreen.State :=
  { sampleTripState with tripPhase := TripPhase.to_drop }

/-- `sampleTripState` with no driver identity yet. -/
def sampleNoIdState : LocationScreen.State :=
  { sampleTripState with driverId := "" }

/-- A concrete background-tracking state with an open socket. -/
def sampleAtState : AutoDriverTracking.State :=
  { wsRef := some ReadyState.open
    oncloseAttached := true
    closeEventPending := false
    heartbeat := true
    watchActive := true
    currentPosition := some ⟨10, 20⟩
    driverId := some "driver-1"
    cabNumber := some "KA01AB1234"
    reconnectTimer := none
    reconnectAttempts := 0
    sent := [] }

/-- A concrete viewer state with an open socket. -/
def sampleViewerState : CustomerDetailScreen.ViewerState :=
  { wsRef := some ReadyState.open
    oncloseAttached := true
    closeEventPending := false
    heartbeat := true
    viewerId := some "viewer-9"
    driverId := some "driver-1"
    retryCount := 0
    reconnectTimer := none
    isSocketConnected := true }

/-- A concrete three-step maneuver list. -/
def sampleSteps : List CustomerDetailScreen.RouteStepInfo :=
  [{ instruction := "Go straight on Main St"
     distanceMeters := 500
     endLocation := ⟨0, 0⟩
     turnType := CustomerDetailScreen.TurnType.straight },
   { instruction := "Turn left onto Oak Ave"
     distanceMeters := 300
     endLocation := ⟨100, 100⟩
     turnType := CustomerDetailScreen.TurnType.left },
   { instruction := "Turn right onto Pine Rd"
     distanceMeters := 200
     endLocation := ⟨200, 200⟩
     turnType := CustomerDetailScreen.TurnType.right }]

namespace LocationScreen
lemma sendLocationUpdate_driverId (s : State) :
    (sendLocationUpdate s).driverId = s.driverId := by
  unfold sendLocationUpdate
  split
  · rfl
  · split
    · rfl
    · split <;> rfl

lemma sendLocationUpdate_currentPosition (s : State) :
    (sendLocationUpdate s).currentPosition = s.currentPosition := by
  unfold sendLocationUpdate
  split
  · rfl
  · split
    · rfl
    · split <;> rfl

lemma sendLocationUpdate_pickupCoordinate (s : State) :
    (sendLocationUpdate s).pickupCoordinate = s.pickupCoordinate := by
  unfold sendLocationUpdate
  split
  · rfl
  · split
    · rfl
    · split <;> rfl

lemma sendLocationUpdate_tripPhase (s : State) :
    (sendLocationUpdate s).tripPhase = s.tripPhase := by
  unfold sendLocationUpdate
  split
  · rfl
  · split
    · rfl
    · split <;> rfl

lemma sendLocationUpdate_hasPromptedPickup (s : State) :
    (sendLocationUpdate s).hasPromptedPickup = s.hasPromptedPickup := by
  unfold sendLocationUpdate
  split
  · rfl
  · split
    · rfl
    · split <;> rfl

lemma sendLocationUpdate_promptCount (s : State) :
    (sendLocationUpdate s).promptCount = s.promptCount := by
  unfold sendLocationUpdate
  split
  · rfl
  · split
    · rfl
    · split <;> rfl

lemma pickupArrivalEffect_prompted (dist : LatLng → LatLng → ℚ) (s : State)
    (hp : s.hasPromptedPickup = true) : pickupArrivalEffect dist s = s := by
  unfold pickupArrivalEffect
  cases h1 : s.currentPosition <;> cases h2 : s.pickupCoordinate <;> simp [hp]

lemma dropArrivalEffect_skip (dist : LatLng → LatLng → ℚ) (s : State)
    (h : s.tripPhase ≠ TripPhase.to_drop) : dropArrivalEffect dist s = s := by
  unfold dropArrivalEffect
  cases h1 : s.currentPosition <;> cases h2 : s.dropCoordinate <;> simp [h]

lemma onPositionUpdate_after_prompt (dist : LatLng → LatLng → ℚ) (q : LatLng)
    (s : State) (hp : s.hasPromptedPickup = true)
    (hph : s.tripPhase = TripPhase.to_pickup) :
    (onPositionUpdate dist q s).hasPromptedPickup = true ∧
    (onPositionUpdate dist q s).tripPhase = TripPhase.to_pickup ∧
    (onPositionUpdate dist q s).promptCount = s.promptCount ∧
    (onPositionUpdate dist q s).pickupCoordinate = s.pickupCoordinate := by
  have branch : ∀ u : State, u.hasPromptedPickup = true →
      u.tripPhase = TripPhase.to_pickup → u.promptCount = s.promptCount →
      u.pickupCoordinate = s.pickupCoordinate →
      (dropArrivalEffect dist (pickupArrivalEffect dist u)).hasPromptedPickup = true ∧
      (dropArrivalEffect dist (pickupArrivalEffect dist u)).tripPhase = TripPhase.to_pickup ∧
      (dropArrivalEffect dist (pickupArrivalEffect dist u)).promptCount = s.promptCount ∧
      (dropArrivalEffect dist (pickupArrivalEffect dist u)).pickupCoordinate =
        s.pickupCoordinate := by
    intro u h1 h2 h3 h4
    rw [pickupArrivalEffect_prompted dist u h1,
      dropArrivalEffect_skip dist u (by simp [h2])]
    exact ⟨h1, h2, h3, h4⟩
  simp only [onPositionUpdate]
  split
  · exact branch _ ((sendLocationUpdate_hasPromptedPickup _).trans hp)
      ((sendLocationUpdate_tripPhase _).trans hph)
      (sendLocationUpdate_promptCount _) (sendLocationUpdate_pickupCoordinate _)
  · exact branch _ hp hph rfl rfl

lemma posFold_after_prompt (dist : LatLng → LatLng → ℚ) (ps : List LatLng)
    (s : State) (hp : s.hasPromptedPickup = true)
    (hph : s.tripPhase = TripPhase.to_pickup) :
    (posFold dist ps s).hasPromptedPickup = true ∧
    (posFold dist ps s).tripPhase = TripPhase.to_pickup ∧
    (posFold dist ps s).promptCount = s.promptCount := by
  induction ps generalizing s with
  | nil => exact ⟨hp, hph, rfl⟩
  | cons q qs ih =>
      simp only [posFold, List.foldl_cons]
      obtain ⟨h1, h2, h3, -⟩ := onPositionUpdate_after_prompt dist q s hp hph
      obtain ⟨g1, g2, g3⟩ := ih (onPositionUpdate dist q s) h1 h2
      exact ⟨g1, g2, g3.trans h3⟩

lemma onPositionUpdate_triggers (dist : LatLng → LatLng → ℚ) (p pk : LatLng)
    (s : State) (hphase : s.tripPhase = TripPhase.to_pickup)
    (hpk : s.pickupCoordinate = some pk)
    (hnp : s.hasPromptedPickup = false)
    (hd : dist p pk ≤ ARRIVAL_THRESHOLD_METERS) :
    (onPositionUpdate dist p s).hasPromptedPickup = true ∧
    (onPositionUpdate dist p s).promptVisible = true ∧
    (onPositionUpdate dist p s).promptCount = s.promptCount + 1 ∧
    (onPositionUpdate dist p s).tripPhase = TripPhase.to_pickup ∧
    (onPositionUpdate dist p s).pickupCoordinate = some pk := by
  have main : ∀ u : State, u.currentPosition = some p →
      u.pickupCoordinate = some pk → u.tripPhase = TripPhase.to_pickup →
      u.hasPromptedPickup = false → u.promptCount = s.promptCount →
      (dropArrivalEffect dist (pickupArrivalEffect dist u)).hasPromptedPickup = true ∧
      (dropArrivalEffect dist (pickupArrivalEffect dist u)).promptVisible = true ∧
      (dropArrivalEffect dist (pickupArrivalEffect dist u)).promptCount = s.promptCount + 1 ∧
      (dropArrivalEffect dist (pickupArrivalEffect dist u)).tripPhase = TripPhase.to_pickup ∧
      (dropArrivalEffect dist (pickupArrivalEffect dist u)).pickupCoordinate = some pk := by
    intro u h1 h2 h3 h4 h5
    have hfire : pickupArrivalEffect dist u =
        { u with
            hasPromptedPickup := true
            promptVisible := true
            promptCount := u.promptCount + 1 } := by
      unfold pickupArrivalEffect
      rw [h1, h2]
      simp [h3, h4, hd]
    rw [hfire, dropArrivalEffect_skip dist _ (by simp [h3])]
    refine ⟨rfl, rfl, ?_, h3, h2⟩
    exact congrArg (· + 1) h5
  simp only [onPositionUpdate]
  split
  · refine main (sendLocationUpdate { s with currentPosition := some p }) ?_ ?_ ?_ ?_ ?_
    · exact (sendLocationUpdate_currentPosition _).trans rfl
    · exact (sendLocationUpdate_pickupCoordinate _).trans hpk
    · exact (sendLocationUpdate_tripPhase _).trans hphase
    · exact (sendLocationUpdate_hasPromptedPickup _).trans hnp
    · exact sendLocationUpdate_promptCount _
  · exact main { s with currentPosition := some p } rfl hpk hphase hnp rfl
end LocationScreen


/-- C10: the driver haversine (`haversineDistanceInMeters`, Earth radius
6,371,000 m) and the viewer haversine (`calculateDistance`, Earth radius
6371 km times 1000) compute the same real-valued distance function for all
coordinate pairs and any platform math primitives. -/
theorem haversine_implementations_agree (M : Geometry.JsMath ℝ)
    (a b : Geometry.Coordinate ℝ) :
    Geometry.haversineDistanceInMeters M a b = Geometry.calculateDistance M a b := by
  simp only [Geometry.haversineDistanceInMeters, Geometry.calculateDistance,
    Geometry.toRadians]
  ring

/-- C4: reconnect backoff of `AutoDriverTracking.ts`.  The `onclose`
handler increments the attempt counter and schedules a retry after
`min(2000·2^k, 30000)` ms where `k` is the new counter value; with the
counter starting at 0 the successive delays are 4000, 8000, 16000, 30000,
30000, … ms, a non-decreasing sequence capped at 30000 ms, and a successful
open resets the counter to 0. -/
theorem reconnect_backoff_spec :
    (∀ s : AutoDriverTracking.State,
      (AutoDriverTracking.oncloseBody s).reconnectAttempts = s.reconnectAttempts + 1 ∧
      (AutoDriverTracking.oncloseBody s).reconnectTimer =
        some (AutoDriverTracking.reconnectDelay (s.reconnectAttempts + 1))) ∧
    (∀ s : AutoDriverTracking.State, ∀ k : ℕ,
      ((AutoDriverTracking.oncloseBody)^[k] s).reconnectAttempts =
        s.reconnectAttempts + k) ∧
    AutoDriverTracking.reconnectDelay 1 = 4000 ∧
    AutoDriverTracking.reconnectDelay 2 = 8000 ∧
    AutoDriverTracking.reconnectDelay 3 = 16000 ∧
    AutoDriverTracking.reconnectDelay 4 = 30000 ∧
    AutoDriverTracking.reconnectDelay 5 = 30000 ∧
    (∀ k : ℕ, AutoDriverTracking.reconnectDelay k ≤
      AutoDriverTracking.reconnectDelay (k + 1)) ∧
    (∀ k : ℕ, AutoDriverTracking.reconnectDelay k ≤ 30000) ∧
    (∀ s : AutoDriverTracking.State,
      (AutoDriverTracking.onopenBody s).reconnectAttempts = 0) := by
  refine ⟨fun s => ⟨rfl, rfl⟩, ?_, by decide, by decide, by decide, by decide, by decide,
    ?_, ?_, ?_⟩
  · intro s k
    induction k generalizing s with
    | zero => simp
    | succ n ih =>
        rw [Function.iterate_succ_apply]
        rw [ih]
        simp [AutoDriverTracking.oncloseBody]
        omega
  · intro k
    unfold AutoDriverTracking.reconnectDelay
    have h2 : 2 ^ k ≤ 2 ^ (k + 1) := Nat.pow_le_pow_right (by norm_num) (Nat.le_succ k)
    exact min_le_min (Nat.mul_le_mul_left _ h2) le_rfl
  · intro k
    exact min_le_right _ _
  · intro s
    simp only [AutoDriverTracking.onopenBody, AutoDriverTracking.sendLocationUpdate]
    split
    · rfl
    · split
      · rfl
      · split <;> rfl

/-- C1: while the phase is `to_pickup` with position and pickup known, a
position update within the 120 m arrival threshold marks the prompt flag,
displays the prompt and increments the display count exactly once; any
further sequence of position updates leaves the count unchanged and the
flag set, and only the explicit "Not yet" reset re-arms the prompt, after
which a nearby update fires it again. -/
theorem pickup_prompt_fires_exactly_once
    (dist : LatLng → LatLng → ℚ) (s : LocationScreen.State) (p pk : LatLng)
    (ps : List LatLng)
    (hphase : s.tripPhase = TripPhase.to_pickup)
    (hpk : s.pickupCoordinate = some pk)
    (hnp : s.hasPromptedPickup = false)
    (hd : dist p pk ≤ LocationScreen.ARRIVAL_THRESHOLD_METERS) :
    (LocationScreen.onPositionUpdate dist p s).hasPromptedPickup = true ∧
    (LocationScreen.onPositionUpdate dist p s).promptVisible = true ∧
    (LocationScreen.onPositionUpdate dist p s).promptCount = s.promptCount + 1 ∧
    (LocationScreen.posFold dist ps
      (LocationScreen.onPositionUpdate dist p s)).promptCount = s.promptCount + 1 ∧
    (LocationScreen.posFold dist ps
      (LocationScreen.onPositionUpdate dist p s)).hasPromptedPickup = true ∧
    (∀ q, dist q pk ≤ LocationScreen.ARRIVAL_THRESHOLD_METERS →
      (LocationScreen.onPositionUpdate dist q
        (LocationScreen.answerNotYet
          (LocationScreen.onPositionUpdate dist p s))).promptCount =
        s.promptCount + 2) := by
  obtain ⟨t1, t2, t3, t4, t5⟩ :=
    LocationScreen.onPositionUpdate_triggers dist p pk s hphase hpk hnp hd
  obtain ⟨f1, -, f3⟩ :=
    LocationScreen.posFold_after_prompt dist ps
      (LocationScreen.onPositionUpdate dist p s) t1 t4
  refine ⟨t1, t2, t3, f3.trans t3, f1, ?_⟩
  intro q hq
  obtain ⟨-, -, g3, -, -⟩ :=
    LocationScreen.onPositionUpdate_triggers dist q pk
      (LocationScreen.answerNotYet (LocationScreen.onPositionUpdate dist p s))
      t4 t5 rfl hq
  rw [g3]
  have hcount : (LocationScreen.answerNotYet
      (LocationScreen.onPositionUpdate dist p s)).promptCount = s.promptCount + 1 := t3
  rw [hcount]

/-- C1 witness: at the concrete state `sampleTripState`, a position update
at the pickup coordinate displays the prompt and two further updates do
not change the display count. -/
theorem pickup_prompt_fires_exactly_once_witness :
    (LocationScreen.onPositionUpdate zeroDist ⟨10, 20⟩ sampleTripState).promptVisible = true ∧
    (LocationScreen.posFold zeroDist [⟨10, 21⟩, ⟨10, 22⟩]
      (LocationScreen.onPositionUpdate zeroDist ⟨10, 20⟩ sampleTripState)).promptCount =
      sampleTripState.promptCount + 1 :=
  ⟨(pickup_prompt_fires_exactly_once zeroDist sampleTripState ⟨10, 20⟩ ⟨10, 20⟩
      [⟨10, 21⟩, ⟨10, 22⟩] rfl rfl rfl (by decide)).2.1,
   (pickup_prompt_fires_exactly_once zeroDist sampleTripState ⟨10, 20⟩ ⟨10, 20⟩
      [⟨10, 21⟩, ⟨10, 22⟩] rfl rfl rfl (by decide)).2.2.2.1⟩

/-- C2: while the phase is `to_drop` with position and drop known, the
drop-arrival effect at a distance within the 120 m threshold (with the
socket open and a driver identity, so that the send is not suppressed)
sets the phase to `completed`, appends exactly one final snapshot to the
send trace, clears the broadcast interval, and is idempotent afterwards. -/
theorem drop_arrival_completes_trip
    (dist : LatLng → LatLng → ℚ) (s : LocationScreen.State) (p dk : LatLng)
    (hpos : s.currentPosition = some p)
    (hdk : s.dropCoordinate = some dk)
    (hphase : s.tripPhase = TripPhase.to_drop)
    (hd : dist p dk ≤ LocationScreen.ARRIVAL_THRESHOLD_METERS)
    (hws : s.socketReady = some ReadyState.open)
    (hdid : s.driverId ≠ "") :
    (LocationScreen.dropArrivalEffect dist s).tripPhase = TripPhase.completed ∧
    (LocationScreen.dropArrivalEffect dist s).messages = s.messages ++
      [LocationScreen.Msg.location s.driverId p s.tripPhase s.pickupCoordinate
        s.dropCoordinate s.locationFrom s.locationTo] ∧
    (LocationScreen.dropArrivalEffect dist s).broadcastActive = false ∧
    LocationScreen.dropArrivalEffect dist (LocationScreen.dropArrivalEffect dist s) =
      LocationScreen.dropArrivalEffect dist s := by
  have hsend : LocationScreen.sendLocationUpdate s =
      { s with messages := s.messages ++
          [LocationScreen.Msg.location s.driverId p s.tripPhase s.pickupCoordinate
            s.dropCoordinate s.locationFrom s.locationTo] } := by
    unfold LocationScreen.sendLocationUpdate
    rw [if_neg (by simp [hws]), if_neg (by simp [hdid, hpos]), hpos]
  have heff : LocationScreen.dropArrivalEffect dist s =
      { (LocationScreen.sendLocationUpdate s) with
          tripPhase := TripPhase.completed
          broadcastActive := false } := by
    unfold LocationScreen.dropArrivalEffect
    rw [hpos, hdk]
    dsimp only
    rw [if_neg (by simp [hphase]), if_pos hd]
  rw [heff]
  refine ⟨rfl, ?_, rfl, ?_⟩
  · rw [hsend]
  · exact LocationScreen.dropArrivalEffect_skip dist _ (by simp)

/-- C2 witness: at the concrete state `sampleDropState`, arrival at the
drop completes the trip and halts the broadcast loop. -/
theorem drop_arrival_completes_trip_witness :
    (LocationScreen.dropArrivalEffect zeroDist sampleDropState).tripPhase =
      TripPhase.completed ∧
    (LocationScreen.dropArrivalEffect zeroDist sampleDropState).broadcastActive = false :=
  ⟨(drop_arrival_completes_trip zeroDist sampleDropState ⟨10, 20⟩ ⟨11, 21⟩
      rfl rfl rfl (by decide) rfl (by decide)).1,
   (drop_arrival_completes_trip zeroDist sampleDropState ⟨10, 20⟩ ⟨11, 21⟩
      rfl rfl rfl (by decide) rfl (by decide)).2.2.1⟩

/-- C3: a driver snapshot is appended to the send trace only when the
socket is open and both `driverId` and the current position are known; in
particular with an empty `driverId` any number of broadcast-loop ticks
(`setInterval(sendLocationUpdate, BROADCAST_INTERVAL_MS)`) leaves the
state — and hence the send trace — unchanged. -/
theorem snapshot_requires_identity (s : LocationScreen.State) (n : ℕ) :
    (s.driverId = "" → (LocationScreen.sendLocationUpdate)^[n] s = s) ∧
    ((LocationScreen.sendLocationUpdate s).messages ≠ s.messages →
      s.socketReady = some ReadyState.open ∧ s.driverId ≠ "" ∧
        s.currentPosition ≠ none) := by
  constructor
  · intro hid
    have hfix : LocationScreen.sendLocationUpdate s = s := by
      unfold LocationScreen.sendLocationUpdate
      split
      · rfl
      · rw [if_pos (Or.inl hid)]
    exact Function.iterate_fixed hfix n
  · intro hmsg
    by_cases h1 : s.socketReady = some ReadyState.open
    · by_cases h2 : s.driverId = ""
      · refine absurd ?_ hmsg
        have hfix : LocationScreen.sendLocationUpdate s = s := by
          unfold LocationScreen.sendLocationUpdate
          split
          · rfl
          · rw [if_pos (Or.inl h2)]
        rw [hfix]
      · by_cases h3 : s.currentPosition = none
        · refine absurd ?_ hmsg
          have hfix : LocationScreen.sendLocationUpdate s = s := by
            unfold LocationScreen.sendLocationUpdate
            split
            · rfl
            · rw [if_pos (Or.inr h3)]
          rw [hfix]
        · exact ⟨h1, h2, h3⟩
    · refine absurd ?_ hmsg
      have hfix : LocationScreen.sendLocationUpdate s = s := by
        unfold LocationScreen.sendLocationUpdate
        rw [if_pos h1]
      rw [hfix]

/-- C3 witness: with no driver identity three broadcast ticks change
nothing, and at `sampleTripState` (where the trace does grow) the
open/identity/position conditions hold. -/
theorem snapshot_requires_identity_witness :
    (LocationScreen.sendLocationUpdate)^[3] sampleNoIdState = sampleNoIdState ∧
    (sampleTripState.socketReady = some ReadyState.open ∧
      sampleTripState.driverId ≠ "" ∧ sampleTripState.currentPosition ≠ none) :=
  ⟨(snapshot_requires_identity sampleNoIdState 3).1 rfl,
   (snapshot_requires_identity sampleTripState 0).2 (by decide)⟩

/-- C7 counterexample: the claim states that after an intentional
disconnect no reconnection attempt is ever scheduled.  At the concrete
open-socket state `sampleAtState`, running `stopAutoTracking` and then
delivering the close event that `ws.close()` produces leaves a scheduled
reconnect timer of 4000 ms, because `stopAutoTracking` never detaches the
`onclose` handler and that handler schedules a retry unconditionally. -/
theorem intentional_disconnect_counterexample :
    (AutoDriverTracking.deliverClose
      (AutoDriverTracking.stopAutoTracking sampleAtState)).reconnectTimer =
      some 4000 := by decide

/-- C7 amended: `stopAutoTracking` and `closeWebSocket` send a best-effort
`DRIVER_DISCONNECT` while the socket is open and synchronously clear any
pending reconnect timer, but they leave the `onclose` handler attached, so
the close event delivered after the intentional close schedules a
reconnection attempt anyway; only the viewer `cleanupSocket` suppresses
reconnection — it detaches `onclose` before closing with code 1000, so no
handler can run, and even the attached viewer handler ignores a close with
the intentional code 1000. -/
theorem intentional_disconnect_amended
    (s : AutoDriverTracking.State) (c : CustomerDetailScreen.ViewerState)
    (sl : LocationScreen.State)
    (hs : s.wsRef = some ReadyState.open) (hatt : s.oncloseAttached = true)
    (hc : c.wsRef = some ReadyState.open)
    (hsl : sl.socketReady = some ReadyState.open)
    (hslatt : sl.oncloseAttached = true) :
    (AutoDriverTracking.stopAutoTracking s).sent =
      s.sent ++ [AutoDriverTracking.Msg.driverDisconnect s.driverId s.cabNumber] ∧
    (AutoDriverTracking.stopAutoTracking s).reconnectTimer = none ∧
    (AutoDriverTracking.deliverClose
      (AutoDriverTracking.stopAutoTracking s)).reconnectTimer =
      some (AutoDriverTracking.reconnectDelay (s.reconnectAttempts + 1)) ∧
    (LocationScreen.closeWebSocket sl).messages =
      sl.messages ++ [LocationScreen.Msg.driverDisconnect sl.driverId sl.cabNumber] ∧
    (LocationScreen.closeWebSocket sl).reconnectTimer = none ∧
    (LocationScreen.deliverClose (LocationScreen.closeWebSocket sl)).reconnectTimer =
      some LocationScreen.WS_RECONNECT_DELAY_MS ∧
    (CustomerDetailScreen.cleanupSocket c).oncloseAttached = false ∧
    (∀ code : ℕ,
      (CustomerDetailScreen.deliverViewerClose code
        (CustomerDetailScreen.cleanupSocket c)).reconnectTimer = none) ∧
    (∀ c2 : CustomerDetailScreen.ViewerState, c2.reconnectTimer = none →
      (CustomerDetailScreen.viewerOncloseBody 1000 c2).reconnectTimer = none) := by
  have hstop : AutoDriverTracking.stopAutoTracking s =
      { s with
          watchActive := false
          sent := s.sent ++ [AutoDriverTracking.Msg.driverDisconnect s.driverId s.cabNumber]
          wsRef := none
          closeEventPending := true
          heartbeat := false
          reconnectTimer := none } := by
    unfold AutoDriverTracking.stopAutoTracking
    rw [show ({ s with watchActive := false } : AutoDriverTracking.State).wsRef = some ReadyState.open from hs]
    dsimp only
    rw [if_pos rfl]
  have hclosewb : LocationScreen.closeWebSocket sl =
      { sl with
          messages := sl.messages ++
            [LocationScreen.Msg.driverDisconnect sl.driverId sl.cabNumber]
          socketReady := none
          closeEventPending := true
          isConnected := false
          heartbeatActive := false
          broadcastActive := false
          reconnectTimer := none } := by
    unfold LocationScreen.closeWebSocket
    rw [hsl]
    dsimp only
    rw [if_pos rfl]
  have hclean : CustomerDetailScreen.cleanupSocket c =
      { c with
          reconnectTimer := none
          heartbeat := false
          oncloseAttached := false
          closeEventPending := true
          wsRef := none
          isSocketConnected := false } := by
    unfold CustomerDetailScreen.cleanupSocket
    rw [show ({ c with reconnectTimer := none, heartbeat := false } :
        CustomerDetailScreen.ViewerState).wsRef = some ReadyState.open from hc]
    dsimp only
    rw [if_pos (Or.inl rfl)]
  refine ⟨by rw [hstop], by rw [hstop], ?_, by rw [hclosewb], by rw [hclosewb], ?_, ?_, ?_, ?_⟩
  · rw [hstop]
    unfold AutoDriverTracking.deliverClose
    rw [if_pos (by trivial), if_pos (by exact hatt)]
    rfl
  · rw [hclosewb]
    unfold LocationScreen.deliverClose
    rw [if_pos (by trivial), if_pos (by exact hslatt)]
    rfl
  · rw [hclean]
  · intro code
    rw [hclean]
    unfold CustomerDetailScreen.deliverViewerClose
    rw [if_pos (by trivial), if_neg (by simp)]
  · intro c2 h2
    unfold CustomerDetailScreen.viewerOncloseBody
    rw [if_pos (Or.inr (Or.inr rfl))]
    exact h2

/-- C7 witness for the amended claim, at the concrete states
`sampleAtState`, `sampleViewerState` and `sampleTripState`. -/
theorem intentional_disconnect_amended_witness :
    (AutoDriverTracking.deliverClose
      (AutoDriverTracking.stopAutoTracking sampleAtState)).reconnectTimer =
      some (AutoDriverTracking.reconnectDelay (sampleAtState.reconnectAttempts + 1)) ∧
    (CustomerDetailScreen.cleanupSocket sampleViewerState).oncloseAttached = false :=
  ⟨(intentional_disconnect_amended sampleAtState sampleViewerState sampleTripState
      rfl rfl rfl rfl rfl).2.2.1,
   (intentional_disconnect_amended sampleAtState sampleViewerState sampleTripState
      rfl rfl rfl rfl rfl).2.2.2.2.2.2.1⟩

lemma advanceSteps_spec (dist : LatLng → LatLng → ℚ) (p : LatLng)
    (steps : List CustomerDetailScreen.RouteStepInfo) :
    ∀ n idx, steps.length - idx ≤ n → idx ≤ steps.length - 1 →
      idx ≤ CustomerDetailScreen.advanceSteps dist p steps idx ∧
      CustomerDetailScreen.advanceSteps dist p steps idx ≤ steps.length - 1 ∧
      (CustomerDetailScreen.advanceSteps dist p steps idx = steps.length - 1 ∨
        ¬ dist p ((steps.getD (CustomerDetailScreen.advanceSteps dist p steps idx)
            default).endLocation) ≤
          CustomerDetailScreen.STEP_COMPLETION_THRESHOLD_METERS) ∧
      (∀ k, idx ≤ k → k < CustomerDetailScreen.advanceSteps dist p steps idx →
        dist p ((steps.getD k default).endLocation) ≤
          CustomerDetailScreen.STEP_COMPLETION_THRESHOLD_METERS) := by
  intro n
  induction n with
  | zero =>
      intro idx hn hi
      have hlen : steps.length = 0 := by omega
      rw [CustomerDetailScreen.advanceSteps]
      rw [if_neg (by rw [hlen]; omega)]
      refine ⟨le_refl _, hi, Or.inl (by omega), ?_⟩
      intro k hk1 hk2
      omega
  | succ n ih =>
      intro idx hn hi
      rw [CustomerDetailScreen.advanceSteps]
      split
      · next hcond =>
          have hstep : idx + 1 ≤ steps.length - 1 := hcond.2
          obtain ⟨a, b, c3, d⟩ := ih (idx + 1) (by omega) hstep
          refine ⟨le_trans (Nat.le_succ idx) a, b, c3, ?_⟩
          intro k hk1 hk2
          rcases eq_or_lt_of_le hk1 with rfl | hlt
          · exact hcond.1
          · exact d k hlt hk2
      · next hcond =>
          refine ⟨le_refl _, hi, ?_, ?_⟩
          · by_cases hdist : dist p ((steps.getD idx default).endLocation) ≤
                CustomerDetailScreen.STEP_COMPLETION_THRESHOLD_METERS
            · left
              have : ¬ idx < steps.length - 1 := fun h => hcond ⟨hdist, h⟩
              omega
            · exact Or.inr hdist
          · intro k hk1 hk2
            omega

/-- C6: within one RouteResult (a fixed non-empty step list), the active
step index produced by `updateGuidanceProgress` never decreases and never
exceeds N−1; the update stops either at the last step or at the first step
whose end lies beyond the 35 m completion threshold, and every step it
skipped had its end within the threshold (so several already-passed
maneuvers can be passed in one update). -/
theorem guidance_index_monotone (dist : LatLng → LatLng → ℚ) (p : LatLng)
    (steps : List CustomerDetailScreen.RouteStepInfo) (i : ℕ)
    (hne : steps ≠ []) (hi : i ≤ steps.length - 1) :
    i ≤ (CustomerDetailScreen.updateGuidanceProgress dist p steps i).1 ∧
    (CustomerDetailScreen.updateGuidanceProgress dist p steps i).1 ≤ steps.length - 1 ∧
    ((CustomerDetailScreen.updateGuidanceProgress dist p steps i).1 = steps.length - 1 ∨
      ¬ dist p ((steps.getD (CustomerDetailScreen.updateGuidanceProgress dist p steps i).1
          default).endLocation) ≤
        CustomerDetailScreen.STEP_COMPLETION_THRESHOLD_METERS) ∧
    (∀ k, i ≤ k → k < (CustomerDetailScreen.updateGuidanceProgress dist p steps i).1 →
      dist p ((steps.getD k default).endLocation) ≤
        CustomerDetailScreen.STEP_COMPLETION_THRESHOLD_METERS) := by
  have hup : (CustomerDetailScreen.updateGuidanceProgress dist p steps i).1 =
      CustomerDetailScreen.advanceSteps dist p steps i := by
    unfold CustomerDetailScreen.updateGuidanceProgress
    rw [if_neg (by simp [hne])]
    dsimp only
    rw [Nat.min_eq_left hi]
  rw [hup]
  exact advanceSteps_spec dist p steps steps.length i (Nat.sub_le _ _) hi

/-- C6 witness: at the taxicab distance, position `(0, 0)` and the
concrete three-step list, the updated index stays within bounds. -/
theorem guidance_index_monotone_witness :
    0 ≤ (CustomerDetailScreen.updateGuidanceProgress taxiDist ⟨0, 0⟩ sampleSteps 0).1 ∧
    (CustomerDetailScreen.updateGuidanceProgress taxiDist ⟨0, 0⟩ sampleSteps 0).1 ≤
      sampleSteps.length - 1 :=
  ⟨(guidance_index_monotone taxiDist ⟨0, 0⟩ sampleSteps 0 (by decide) (by decide)).1,
   (guidance_index_monotone taxiDist ⟨0, 0⟩ sampleSteps 0 (by decide) (by decide)).2.1⟩

/-- C5: `getDirections` is a total function of the two provider responses
(no error reaches the caller).  When the Google request fails (`none`) or
returns no routes, the OSRM fallback is used: a first OSRM route with a
non-empty geometry yields exactly its decoded polyline with an empty
maneuver-step list; when OSRM also fails (request error, no routes, or
falsy geometry) the result is exactly the degenerate two-point straight
line with no steps. -/
theorem getDirections_provider_fallback (origin destination : LatLng)
    (g : Option CustomerDetailScreen.GoogleResponse)
    (o : Option CustomerDetailScreen.OsrmResponse)
    (hg : ∀ resp, g = some resp → resp.routes = []) :
    (∀ resp route rest poly, o = some resp → resp.routes = route :: rest →
      route.geometry = some poly → poly ≠ "" →
      CustomerDetailScreen.getDirections origin destination g o =
        { coordinates := CustomerDetailScreen.decodePolyline poly, steps := [] }) ∧
    ((o = none ∨ ∃ resp, o = some resp ∧ (resp.routes = [] ∨
      ∃ route rest, resp.routes = route :: rest ∧
        (route.geometry = none ∨ route.geometry = some ""))) →
      CustomerDetailScreen.getDirections origin destination g o =
        { coordinates := [origin, destination], steps := [] }) := by
  have hosrm : CustomerDetailScreen.getDirections origin destination g o =
      CustomerDetailScreen.getDirectionsOsrm origin destination o := by
    cases g with
    | none => rfl
    | some resp =>
        have hr := hg resp rfl
        unfold CustomerDetailScreen.getDirections
        dsimp only
        rw [hr]
  rw [hosrm]
  constructor
  · intro resp route rest poly ho hr hgeo hpoly
    subst ho
    unfold CustomerDetailScreen.getDirectionsOsrm
    dsimp only
    rw [hr]
    dsimp only
    rw [hgeo]
    dsimp only
    rw [if_neg hpoly]
  · intro hcase
    rcases hcase with hnone | ⟨resp, ho, hcases⟩
    · subst hnone
      rfl
    · subst ho
      unfold CustomerDetailScreen.getDirectionsOsrm
      dsimp only
      rcases hcases with hempty | ⟨route, rest, hr, hgeo⟩
      · rw [hempty]
      · rw [hr]
        dsimp only
        rcases hgeo with hgeo | hgeo
        · rw [hgeo]
        · rw [hgeo]
          dsimp only
          rw [if_pos rfl]

/-- C5 witness: with both providers failing, the result is the two-point
straight line. -/
theorem getDirections_provider_fallback_witness :
    CustomerDetailScreen.getDirections ⟨1, 1⟩ ⟨2, 2⟩ none none =
      { coordinates := [⟨1, 1⟩, ⟨2, 2⟩], steps := [] } :=
  (getDirections_provider_fallback ⟨1, 1⟩ ⟨2, 2⟩ none none
    (fun _ h => nomatch h)).2 (Or.inl rfl)

/-- C8: `formatDistance` applies graduated rounding for every non-negative
meter value: at or above 1000 m the result carries the `km` unit (one
decimal, whole kilometers at or above 10 km); from 100 m up to 1000 m the
value is a multiple of 10 within 5 m of the input; below 100 m the value
is a multiple of 5, at least 5, within 2.5 m of the input above the 2.5 m
floor cut-off and exactly "5 m" below it; in particular
`formatDistance 1500 = "1.5 km"`, `formatDistance 15000 = "15 km"`,
`formatDistance 240 = "240 m"` and `formatDistance 8 = "10 m"`. -/
theorem formatDistance_graduated (m : ℚ) (h0 : 0 ≤ m) :
    CustomerDetailScreen.formatDistance 1500 = "1.5 km" ∧
    CustomerDetailScreen.formatDistance 15000 = "15 km" ∧
    CustomerDetailScreen.formatDistance 240 = "240 m" ∧
    CustomerDetailScreen.formatDistance 8 = "10 m" ∧
    (1000 ≤ m → ∃ t, CustomerDetailScreen.formatDistance m = t ++ " km") ∧
    (100 ≤ m → m < 1000 → ∃ k : ℤ,
      CustomerDetailScreen.formatDistance m = toString (10 * k) ++ " m" ∧
      |(10 * k : ℚ) - m| ≤ 5) ∧
    (m < 5 / 2 → CustomerDetailScreen.formatDistance m = "5 m") ∧
    (5 / 2 ≤ m → m < 100 → ∃ k : ℤ, 1 ≤ k ∧
      CustomerDetailScreen.formatDistance m = toString (5 * k) ++ " m" ∧
      |(5 * k : ℚ) - m| ≤ 5 / 2) := by
  have c1 : CustomerDetailScreen.formatDistance 1500 = "1.5 km" := by
    unfold CustomerDetailScreen.formatDistance
    rw [if_neg (by norm_num), if_pos (by norm_num)]
    dsimp only
    rw [if_neg (by norm_num),
      show CustomerDetailScreen.jsRound (1500 / 1000 * 10) = 15 by
        unfold CustomerDetailScreen.jsRound; norm_num]
    rfl
  have c2 : CustomerDetailScreen.formatDistance 15000 = "15 km" := by
    unfold CustomerDetailScreen.formatDistance
    rw [if_neg (by norm_num), if_pos (by norm_num)]
    dsimp only
    rw [if_pos (by norm_num),
      show CustomerDetailScreen.jsRound (15000 / 1000) = 15 by
        unfold CustomerDetailScreen.jsRound; norm_num]
    rfl
  have c3 : CustomerDetailScreen.formatDistance 240 = "240 m" := by
    unfold CustomerDetailScreen.formatDistance
    rw [if_neg (by norm_num), if_neg (by norm_num), if_pos (by norm_num),
      show CustomerDetailScreen.jsRound (240 / 10) = 24 by
        unfold CustomerDetailScreen.jsRound; norm_num]
    rfl
  have c4 : CustomerDetailScreen.formatDistance 8 = "10 m" := by
    unfold CustomerDetailScreen.formatDistance
    rw [if_neg (by norm_num), if_neg (by norm_num), if_neg (by norm_num),
      show CustomerDetailScreen.jsRound (8 / 5) = 2 by
        unfold CustomerDetailScreen.jsRound; norm_num]
    rfl
  refine ⟨c1, c2, c3, c4, ?_, ?_, ?_, ?_⟩
  · intro h1000
    unfold CustomerDetailScreen.formatDistance
    rw [if_neg (not_lt.mpr h0), if_pos h1000]
    dsimp only
    split
    · exact ⟨_, rfl⟩
    · exact ⟨_, rfl⟩
  · intro h100 h900
    refine ⟨CustomerDetailScreen.jsRound (m / 10), ?_, ?_⟩
    · unfold CustomerDetailScreen.formatDistance
      rw [if_neg (not_lt.mpr h0), if_neg (not_le.mpr h900), if_pos h100,
        Int.mul_comm]
    · unfold CustomerDetailScreen.jsRound
      have hf := Int.floor_le (m / 10 + 1 / 2)
      have hc := Int.lt_floor_add_one (m / 10 + 1 / 2)
      rw [abs_le]
      constructor
      · linarith
      · linarith
  · intro hlt
    have hk : CustomerDetailScreen.jsRound (m / 5) = 0 := by
      unfold CustomerDetailScreen.jsRound
      rw [Int.floor_eq_zero_iff]
      constructor
      · linarith
      · linarith
    unfold CustomerDetailScreen.formatDistance
    rw [if_neg (not_lt.mpr h0), if_neg (by linarith), if_neg (by linarith), hk]
    decide
  · intro hge hlt
    have hk1 : 1 ≤ CustomerDetailScreen.jsRound (m / 5) := by
      unfold CustomerDetailScreen.jsRound
      rw [Int.le_floor]
      push_cast
      linarith
    refine ⟨CustomerDetailScreen.jsRound (m / 5), hk1, ?_, ?_⟩
    · unfold CustomerDetailScreen.formatDistance
      rw [if_neg (not_lt.mpr h0), if_neg (by linarith), if_neg (not_le.mpr hlt),
        max_eq_right (by omega), Int.mul_comm]
    · unfold CustomerDetailScreen.jsRound
      have hf := Int.floor_le (m / 5 + 1 / 2)
      have hc := Int.lt_floor_add_one (m / 5 + 1 / 2)
      rw [abs_le]
      constructor
      · linarith
      · linarith

/-- C8 witness: the theorem at the concrete input 240 m, projected to the
two concrete sub-100/sub-1000 instances. -/
theorem formatDistance_graduated_witness :
    CustomerDetailScreen.formatDistance 240 = "240 m" ∧
    CustomerDetailScreen.formatDistance 8 = "10 m" :=
  ⟨(formatDistance_graduated 240 (by norm_num)).2.2.1,
   (formatDistance_graduated 240 (by norm_num)).2.2.2.1⟩

/-- C9: a `Head <compass-direction>` instruction with no turn keyword
normalises to a plain go-straight instruction, and the keyword-based turn
classifier maps `u-turn` to `u_turn`, `slight left` to `slight_left`,
`turn left` and `keep left` to `left`, keyword-free text to `straight`;
in particular the two spec instances hold. -/
theorem instruction_normalization_spec :
    CustomerDetailScreen.normalizeInstruction "Head north on Main St" =
      "Go straight on Main St" ∧
    CustomerDetailScreen.extractTurnType "Turn slight left onto Oak Ave" =
      CustomerDetailScreen.TurnType.slight_left ∧
    CustomerDetailScreen.extractTurnType "u-turn" =
      CustomerDetailScreen.TurnType.u_turn ∧
    CustomerDetailScreen.extractTurnType "slight left" =
      CustomerDetailScreen.TurnType.slight_left ∧
    CustomerDetailScreen.extractTurnType "turn left" =
      CustomerDetailScreen.TurnType.left ∧
    CustomerDetailScreen.extractTurnType "keep left" =
      CustomerDetailScreen.TurnType.left ∧
    CustomerDetailScreen.extractTurnType "continue to the ramp" =
      CustomerDetailScreen.TurnType.straight := by
  refine ⟨?_, ?_, ?_, ?_, ?_, ?_, ?_⟩ <;> decide
